import Mathlib

/-!
Verification development for the mopro-r0-ecdsa-app repository.

The repository wraps a zkVM-based ECDSA (secp256r1) proof of signature
knowledge behind two FFI operations, `risc0_prove` and `risc0_verify`
(src/mopro-r0-example-app/src/lib.rs), with a guest program
(src/risc0-circuit/methods/guest/src/main.rs) that checks the signature
inside the zkVM and commits the public key encoding and message to its
journal, and a demo host binary (src/risc0-circuit/src/main.rs) whose
`prove_ecdsa_verification` helper unwraps all backend results.

The external crates (risc0-zkvm prover and receipt verification, the p256
ECDSA library, bincode serialization, UTF-8 string conversion) are not part
of the repository. They appear here as the fields of a `Backend` structure,
and their documented contracts (spec sections 3 and 6: seal soundness and
completeness, codec round trips, matching sign and verify) as the Prop
structure `BackendSpec`. The repository functions themselves are translated
directly from the source, with a Rust panic or process abort rendered as
`none` and a Rust `Result` as `Except`.
-/

/-- Byte buffers (Rust `Vec<u8>` and `&[u8]`), each byte a `Nat`. -/
abbrev Bytes : Type := List Nat

/-- The error enum `Risc0Error` from src/mopro-r0-example-app/src/lib.rs. -/
inductive Risc0Error : Type where
  | ProveError (cause : String)
  | SerializeError (cause : String)
  | VerifyError (cause : String)
  | DecodeError (cause : String)
deriving DecidableEq, Repr

/-- The record `Risc0ProofOutput` from lib.rs. -/
structure Risc0ProofOutput : Type where
  receipt : Bytes
deriving DecidableEq, Repr

/-- The record `Risc0VerifyOutput` from lib.rs. -/
structure Risc0VerifyOutput : Type where
  is_valid : Bool
  verified_message : String
deriving DecidableEq, Repr

/-- A risc0 `Receipt`: the journal bytes committed by the guest plus the
cryptographic seal produced by the proving backend. -/
structure Receipt (Seal : Type) : Type where
  journal : Bytes
  sealv : Seal
deriving DecidableEq

variable {SKey VKey Sig Seal : Type}

deriving instance DecidableEq for Except

/-- The p256 ECDSA library surface used by the repository: key generation is
modelled by the caller supplying the drawn signing key, and these are the
deterministic operations on keys, messages and signatures. -/
structure P256 (SKey VKey Sig : Type) : Type where
  verifyingKey : SKey → VKey
  toEncodedPoint : VKey → Bytes
  fromEncodedPoint : Bytes → Option VKey
  sign : SKey → Bytes → Sig
  verify : VKey → Bytes → Sig → Bool

/-- The guest program main from src/risc0-circuit/methods/guest/src/main.rs.
The input tuple is (compressed public-key encoding, message bytes,
signature) as written by the host via `env::write` and read back by
`env::read`. The result is the pair committed to the journal, or `none`
when the guest panics (the `unwrap` on key reconstruction, or the `expect`
on a failed signature verification) and so aborts with no commit. -/
def guestMain (P : P256 SKey VKey Sig) (input : Bytes × Bytes × Sig) :
    Option (Bytes × Bytes) :=
  match P.fromEncodedPoint input.1 with
  | none => none
  | some verifying_key =>
    if P.verify verifying_key input.2.1 input.2.2 then
      some (input.1, input.2.1)
    else
      none

/-- The external collaborators of the repository, bundled: the p256 library,
the risc0 proving backend and receipt verification, the risc0 journal codec,
bincode receipt serialization, and UTF-8 string conversion. The field
`ECDSA_VERIFY_ID` is the build-time program identity constant from the
methods crate. `envWriteOk` models the two fallible `ExecutorEnv` builder
steps (`write` and `build`). -/
structure Backend (SKey VKey Sig Seal : Type) : Type where
  P : P256 SKey VKey Sig
  ECDSA_VERIFY_ID : Nat
  journalEncode : Bytes × Bytes → Bytes
  journalDecode : Bytes → Option (Bytes × Bytes)
  makeSeal : Nat → Bytes → Seal
  sealVerify : Seal → Bytes → Nat → Bool
  serializeReceipt : Receipt Seal → Option Bytes
  deserializeReceipt : Bytes → Option (Receipt Seal)
  utf8Encode : String → Bytes
  utf8Decode : Bytes → Option String
  envWriteOk : Bytes × Bytes × Sig → Bool

/-- Modelled from the spec: the proving backend (spec section 6) runs the
guest program on the input environment and either returns a receipt whose
journal is the guest commit and whose seal binds that journal to the
program identity, or fails when the guest aborts. The seal is a function of
the program identity and the journal alone, reflecting the spec statement
that the seal reveals nothing about the input beyond what the journal
exposes. -/
def proverProve (B : Backend SKey VKey Sig Seal) (input : Bytes × Bytes × Sig) :
    Option (Receipt Seal) :=
  match guestMain B.P input with
  | none => none
  | some committed =>
    some ⟨B.journalEncode committed, B.makeSeal B.ECDSA_VERIFY_ID (B.journalEncode committed)⟩

/-- The function `risc0_prove` from src/mopro-r0-example-app/src/lib.rs.
The call `SigningKey::random(&mut OsRng)` is modelled by the parameter
`osrng_key`, the key drawn from the operating-system RNG for this call. -/
def risc0_prove (B : Backend SKey VKey Sig Seal) (osrng_key : SKey) (message : String) :
    Except Risc0Error Risc0ProofOutput :=
  let signing_key := osrng_key
  let verifying_key := B.P.verifyingKey signing_key
  let message_bytes := B.utf8Encode message
  let signature := B.P.sign signing_key message_bytes
  let input := (B.P.toEncodedPoint verifying_key, message_bytes, signature)
  if B.envWriteOk input then
    match proverProve B input with
    | none => .error (.ProveError "Failed to generate proof")
    | some receipt =>
      match B.serializeReceipt receipt with
      | none => .error (.SerializeError "Failed to serialize receipt")
      | some receipt_bytes => .ok { receipt := receipt_bytes }
  else
    .error (.ProveError "Failed to build executor environment")

/-- The function `risc0_verify` from src/mopro-r0-example-app/src/lib.rs:
bincode deserialization, then `receipt.verify(ECDSA_VERIFY_ID)`, then
journal decoding, then `String::from_utf8`, each failure mapped to its own
error kind exactly as in the source. -/
def risc0_verify (B : Backend SKey VKey Sig Seal) (receipt_bytes : Bytes) :
    Except Risc0Error Risc0VerifyOutput :=
  match B.deserializeReceipt receipt_bytes with
  | none => .error (.SerializeError "Failed to deserialize receipt")
  | some receipt =>
    if B.sealVerify receipt.sealv receipt.journal B.ECDSA_VERIFY_ID then
      match B.journalDecode receipt.journal with
      | none => .error (.DecodeError "Failed to decode journal")
      | some (_receipt_verifying_key, receipt_message) =>
        match B.utf8Decode receipt_message with
        | none => .error (.DecodeError "Failed to convert message to string")
        | some verified_message =>
          .ok { is_valid := true, verified_message := verified_message }
    else
      .error (.VerifyError "Failed to verify receipt")

/-- The helper `prove_ecdsa_verification` from src/risc0-circuit/src/main.rs.
Every backend result is unwrapped there, so any backend failure (a failed
`ExecutorEnv` write or build, or a failed prove, including the guest abort
on a bad signature) panics and aborts the host process; that abort is
rendered as `none`. -/
def prove_ecdsa_verification (B : Backend SKey VKey Sig Seal) (verifying_key : VKey)
    (message : Bytes) (signature : Sig) : Option (Receipt Seal) :=
  let input := (B.P.toEncodedPoint verifying_key, message, signature)
  if B.envWriteOk input then proverProve B input else none

/-- The `receipt.verify(ECDSA_VERIFY_ID)` step: the seal checked against the
journal and the fixed program identity. -/
def receiptVerifies (B : Backend SKey VKey Sig Seal) (r : Receipt Seal) : Bool :=
  B.sealVerify r.sealv r.journal B.ECDSA_VERIFY_ID

/-- The public key encoding a receipt byte buffer carries in its journal,
when the buffer deserializes and its journal decodes. -/
def embeddedPublicKey (B : Backend SKey VKey Sig Seal) (receipt_bytes : Bytes) :
    Option Bytes :=
  match B.deserializeReceipt receipt_bytes with
  | none => none
  | some r =>
    match B.journalDecode r.journal with
    | none => none
    | some (enc, _) => some enc

/-- The guest input built by `risc0_prove` for a drawn key and message. -/
def producedInput (B : Backend SKey VKey Sig Seal) (sk : SKey) (m : String) :
    Bytes × Bytes × Sig :=
  (B.P.toEncodedPoint (B.P.verifyingKey sk), B.utf8Encode m,
    B.P.sign sk (B.utf8Encode m))

/-- The receipt the backend produces for the guest input of a successful
`risc0_prove` call. -/
def producedReceipt (B : Backend SKey VKey Sig Seal) (sk : SKey) (m : String) :
    Receipt Seal :=
  ⟨B.journalEncode (B.P.toEncodedPoint (B.P.verifyingKey sk), B.utf8Encode m),
    B.makeSeal B.ECDSA_VERIFY_ID
      (B.journalEncode (B.P.toEncodedPoint (B.P.verifyingKey sk), B.utf8Encode m))⟩

/-- Modelled from the spec: the contracts of the external collaborators
(spec sections 3, 4.2 and 6). `key_roundtrip` and `sign_verify` are the
standard ECDSA library guarantees; `seal_complete` and `seal_sound` are the
zkVM receipt contract (a seal verifies exactly for journals produced by a
run of the guest under the matching program identity); the remaining fields
are the lossless round trips of the journal codec, bincode receipt
serialization, and UTF-8. -/
structure BackendSpec (B : Backend SKey VKey Sig Seal) : Prop where
  key_roundtrip : ∀ sk, B.P.fromEncodedPoint (B.P.toEncodedPoint (B.P.verifyingKey sk)) =
    some (B.P.verifyingKey sk)
  sign_verify : ∀ sk m, B.P.verify (B.P.verifyingKey sk) m (B.P.sign sk m) = true
  seal_complete : ∀ i input c, guestMain B.P input = some c →
    B.sealVerify (B.makeSeal i (B.journalEncode c)) (B.journalEncode c) i = true
  seal_sound : ∀ s j, B.sealVerify s j B.ECDSA_VERIFY_ID = true →
    ∃ input c, guestMain B.P input = some c ∧ j = B.journalEncode c ∧
      s = B.makeSeal B.ECDSA_VERIFY_ID j
  journal_roundtrip : ∀ c, B.journalDecode (B.journalEncode c) = some c
  serde_roundtrip : ∀ r b, B.serializeReceipt r = some b → B.deserializeReceipt b = some r
  utf8_roundtrip : ∀ s, B.utf8Decode (B.utf8Encode s) = some s

/-! A concrete executable backend instance. Keys and signatures are small
naturals, the compressed point encoding is a two-byte tag-and-value list,
the journal and receipt codecs are length-prefixed, and the seal is the
transparent pair of program identity and journal, accepted only for
journals a guest run can produce. It satisfies `BackendSpec` and lets every
statement with a hypothesis be exercised on concrete inputs. -/

/-- Concrete p256 stand-in on naturals. -/
def concreteP : P256 Nat Nat Nat where
  verifyingKey := fun sk => sk
  toEncodedPoint := fun vk => [2, vk]
  fromEncodedPoint := fun b =>
    match b with
    | t :: v :: [] => if t = 2 then some v else none
    | _ => none
  sign := fun sk m => sk + m.sum
  verify := fun vk m s => decide (s = vk + m.sum)

/-- Concrete journal encoding: the public-key encoding, length prefixed,
followed by the message bytes. -/
def cJournalEncode (c : Bytes × Bytes) : Bytes :=
  c.1.length :: (c.1 ++ c.2)

/-- Concrete journal decoding, rejecting malformed buffers. -/
def cJournalDecode (b : Bytes) : Option (Bytes × Bytes) :=
  match b with
  | [] => none
  | n :: t => if n ≤ t.length then some (t.take n, t.drop n) else none

/-- Concrete receipt serialization: journal length, journal bytes, seal
identity, seal journal bytes. -/
def cSerialize (r : Receipt (Nat × Bytes)) : Option Bytes :=
  some (r.journal.length :: (r.journal ++ (r.sealv.1 :: r.sealv.2)))

/-- Concrete receipt deserialization, rejecting malformed buffers. -/
def cDeserialize (b : Bytes) : Option (Receipt (Nat × Bytes)) :=
  match b with
  | [] => none
  | n :: t =>
    if n ≤ t.length then
      match t.drop n with
      | [] => none
      | i :: rest => some ⟨t.take n, (i, rest)⟩
    else none

/-- Concrete text encoding: one natural per character. -/
def cUtf8Encode (s : String) : Bytes :=
  s.data.map Char.toNat

/-- Concrete text decoding, rejecting buffers that are not character codes. -/
def cUtf8Decode (b : Bytes) : Option String :=
  let cs := b.map Char.ofNat
  if cs.map Char.toNat = b then some (String.mk cs) else none

/-- The concrete backend instance. -/
def concreteB : Backend Nat Nat Nat (Nat × Bytes) where
  P := concreteP
  ECDSA_VERIFY_ID := 7
  journalEncode := cJournalEncode
  journalDecode := cJournalDecode
  makeSeal := fun i j => (i, j)
  sealVerify := fun s j i =>
    decide (s = (i, j)) &&
      (match cJournalDecode j with
       | some (enc, _) => (concreteP.fromEncodedPoint enc).isSome
       | none => false)
  serializeReceipt := cSerialize
  deserializeReceipt := cDeserialize
  utf8Encode := cUtf8Encode
  utf8Decode := cUtf8Decode
  envWriteOk := fun _ => true

/-- A decoded concrete journal re-encodes to the same bytes: the concrete
journal codec is canonical. -/
theorem cJournalDecode_canonical (b : Bytes) (c : Bytes × Bytes)
    (h : cJournalDecode b = some c) : cJournalEncode c = b := by
  match b with
  | [] => simp [cJournalDecode] at h
  | n :: t =>
    simp only [cJournalDecode] at h
    by_cases hn : n ≤ t.length
    · rw [if_pos hn] at h
      cases h
      simp [cJournalEncode, List.length_take, Nat.min_eq_left hn]
    · rw [if_neg hn] at h
      cases h

/-- The concrete journal codec round trips. -/
theorem cJournal_roundtrip (c : Bytes × Bytes) :
    cJournalDecode (cJournalEncode c) = some c := by
  obtain ⟨enc, m⟩ := c
  simp only [cJournalEncode, cJournalDecode, List.length_append]
  rw [if_pos (Nat.le_add_right _ _)]
  rw [List.take_left, List.drop_left]

/-- The concrete receipt codec round trips. -/
theorem cSerde_roundtrip (r : Receipt (Nat × Bytes)) (b : Bytes)
    (h : cSerialize r = some b) : cDeserialize b = some r := by
  obtain ⟨j, i, sb⟩ := r
  simp only [cSerialize, Option.some.injEq] at h
  subst h
  simp only [cDeserialize, List.length_append, List.length_cons]
  rw [if_pos (Nat.le_add_right _ _)]
  rw [List.drop_left, List.take_left]

/-- The concrete text codec round trips. -/
theorem cUtf8_roundtrip (s : String) :
    cUtf8Decode (cUtf8Encode s) = some s := by
  simp only [cUtf8Decode, cUtf8Encode, List.map_map]
  have h : (fun c => Char.ofNat (Char.toNat c)) = (fun c : Char => c) := by
    funext c
    exact Char.ofNat_toNat c
  rw [show (Char.ofNat ∘ Char.toNat) = (fun c : Char => c) from h]
  simp

/-- Characterization of a guest run that commits: the key reconstruction
succeeded, the signature verified, and the commit is exactly the pair of
public-key encoding and message bytes. -/
theorem guestMain_some_iff (P : P256 SKey VKey Sig) (input : Bytes × Bytes × Sig)
    (c : Bytes × Bytes) :
    guestMain P input = some c ↔
      ∃ vk, P.fromEncodedPoint input.1 = some vk ∧
        P.verify vk input.2.1 input.2.2 = true ∧ c = (input.1, input.2.1) := by
  unfold guestMain
  cases hf : P.fromEncodedPoint input.1 with
  | none => simp
  | some vk =>
    by_cases hv : P.verify vk input.2.1 input.2.2
    · simp only [hv, if_true, Option.some.injEq]
      constructor
      · intro h
        exact ⟨vk, rfl, hv, h.symm⟩
      · rintro ⟨vk2, hvk2, -, hc⟩
        exact hc.symm
    · simp only [Bool.not_eq_true] at hv
      simp only [hv, Bool.false_eq_true, if_false]
      constructor
      · intro h
        cases h
      · rintro ⟨vk2, hvk2, hv2, -⟩
        cases hvk2
        rw [hv] at hv2
        cases hv2

/-- The concrete backend satisfies all external contracts. -/
theorem concreteSpec : BackendSpec concreteB := by
  refine ⟨?_, ?_, ?_, ?_, ?_, ?_, ?_⟩
  · intro sk
    rfl
  · intro sk m
    simp [concreteB, concreteP]
  · intro i input c hg
    rw [show concreteB.P = concreteP from rfl, guestMain_some_iff] at hg
    obtain ⟨vk, hf, hv, hc⟩ := hg
    subst hc
    show (decide _ && _) = true
    rw [Bool.and_eq_true]
    refine ⟨by simp [concreteB], ?_⟩
    show (match cJournalDecode (cJournalEncode (input.1, input.2.1)) with
      | some (enc, _) => (concreteP.fromEncodedPoint enc).isSome
      | none => false) = true
    rw [cJournal_roundtrip]
    simp [hf]
  · intro s j hsv
    rw [show concreteB.sealVerify s j concreteB.ECDSA_VERIFY_ID =
      (decide (s = (concreteB.ECDSA_VERIFY_ID, j)) &&
        (match cJournalDecode j with
         | some (enc, _) => (concreteP.fromEncodedPoint enc).isSome
         | none => false)) from rfl, Bool.and_eq_true, decide_eq_true_iff] at hsv
    obtain ⟨hs, hshape⟩ := hsv
    cases hd : cJournalDecode j with
    | none =>
      rw [hd] at hshape
      cases hshape
    | some c =>
      obtain ⟨enc, m⟩ := c
      rw [hd] at hshape
      simp only [Option.isSome_iff_exists] at hshape
      obtain ⟨vk, hf⟩ := hshape
      refine ⟨(enc, m, vk + m.sum), (enc, m), ?_, ?_, ?_⟩
      · rw [show concreteB.P = concreteP from rfl, guestMain_some_iff]
        exact ⟨vk, hf, by simp [concreteP], rfl⟩
      · exact (cJournalDecode_canonical j (enc, m) hd).symm
      · exact hs
  · intro c
    exact cJournal_roundtrip c
  · intro r b h
    exact cSerde_roundtrip r b h
  · intro s
    exact cUtf8_roundtrip s

/-- The guest run on the input `risc0_prove` builds always commits the pair
of the drawn public key encoding and the encoded message. -/
theorem guestMain_producedInput (B : Backend SKey VKey Sig Seal) (hs : BackendSpec B)
    (sk : SKey) (m : String) :
    guestMain B.P (producedInput B sk m) =
      some (B.P.toEncodedPoint (B.P.verifyingKey sk), B.utf8Encode m) := by
  rw [guestMain_some_iff]
  exact ⟨B.P.verifyingKey sk, hs.key_roundtrip sk, hs.sign_verify sk _, rfl⟩

/-- Unfolding `risc0_prove` through its local bindings. -/
theorem risc0_prove_eq (B : Backend SKey VKey Sig Seal) (sk : SKey) (m : String) :
    risc0_prove B sk m =
      if B.envWriteOk (producedInput B sk m) then
        match proverProve B (producedInput B sk m) with
        | none => .error (.ProveError "Failed to generate proof")
        | some receipt =>
          match B.serializeReceipt receipt with
          | none => .error (.SerializeError "Failed to serialize receipt")
          | some receipt_bytes => .ok { receipt := receipt_bytes }
      else
        .error (.ProveError "Failed to build executor environment") := rfl

/-- The backend, on the input `risc0_prove` builds, returns exactly the
produced receipt. -/
theorem proverProve_producedInput (B : Backend SKey VKey Sig Seal) (hs : BackendSpec B)
    (sk : SKey) (m : String) :
    proverProve B (producedInput B sk m) = some (producedReceipt B sk m) := by
  unfold proverProve
  rw [guestMain_producedInput B hs sk m]
  rfl

/-- A successful `risc0_prove` returns the serialization of the produced
receipt. -/
theorem risc0_prove_ok_serialize (B : Backend SKey VKey Sig Seal) (hs : BackendSpec B)
    (sk : SKey) (m : String) (out : Risc0ProofOutput)
    (h : risc0_prove B sk m = .ok out) :
    B.serializeReceipt (producedReceipt B sk m) = some out.receipt := by
  rw [risc0_prove_eq] at h
  simp only [proverProve_producedInput B hs sk m] at h
  by_cases he : B.envWriteOk (producedInput B sk m)
  · rw [if_pos he] at h
    cases hser : B.serializeReceipt (producedReceipt B sk m) with
    | none =>
      simp only [hser] at h
      exact absurd h (by simp)
    | some bts =>
      simp only [hser, Except.ok.injEq] at h
      rw [← h]
  · rw [if_neg he] at h
    simp at h

/-- Shared round-trip lemma: `risc0_verify` on the receipt bytes of a
successful `risc0_prove` call succeeds with the original message. -/
theorem risc0_verify_of_prove_ok (B : Backend SKey VKey Sig Seal) (hs : BackendSpec B)
    (sk : SKey) (m : String) (out : Risc0ProofOutput)
    (h : risc0_prove B sk m = .ok out) :
    risc0_verify B out.receipt = .ok { is_valid := true, verified_message := m } := by
  have hser := risc0_prove_ok_serialize B hs sk m out h
  have hdes := hs.serde_roundtrip _ _ hser
  have hsv : B.sealVerify (producedReceipt B sk m).sealv (producedReceipt B sk m).journal
      B.ECDSA_VERIFY_ID = true :=
    hs.seal_complete B.ECDSA_VERIFY_ID (producedInput B sk m) _
      (guestMain_producedInput B hs sk m)
  have hjd : B.journalDecode (producedReceipt B sk m).journal =
      some (B.P.toEncodedPoint (B.P.verifyingKey sk), B.utf8Encode m) :=
    hs.journal_roundtrip _
  unfold risc0_verify
  simp only [hdes, hsv, if_true, hjd, hs.utf8_roundtrip m]

/-- Shared lemma: the receipt of a successful `risc0_prove` call embeds the
encoding of the public key drawn for that call. -/
theorem embeddedPublicKey_of_prove_ok (B : Backend SKey VKey Sig Seal)
    (hs : BackendSpec B) (sk : SKey) (m : String) (out : Risc0ProofOutput)
    (h : risc0_prove B sk m = .ok out) :
    embeddedPublicKey B out.receipt = some (B.P.toEncodedPoint (B.P.verifyingKey sk)) := by
  have hser := risc0_prove_ok_serialize B hs sk m out h
  have hdes := hs.serde_roundtrip _ _ hser
  have hjd : B.journalDecode (producedReceipt B sk m).journal =
      some (B.P.toEncodedPoint (B.P.verifyingKey sk), B.utf8Encode m) :=
    hs.journal_roundtrip _
  unfold embeddedPublicKey
  simp only [hdes, hjd]

/-- C1: for every message string, calling `risc0_verify` on the receipt
bytes returned by a successful `risc0_prove` call succeeds and returns
`is_valid` true together with `verified_message` equal to the original
message; the statement quantifies over all messages, so it covers the empty
string and strings with multi-byte characters. -/
theorem prove_verify_roundtrip (B : Backend SKey VKey Sig Seal) (hs : BackendSpec B)
    (sk : SKey) (m : String) (out : Risc0ProofOutput)
    (h : risc0_prove B sk m = .ok out) :
    risc0_verify B out.receipt = .ok { is_valid := true, verified_message := m } :=
  risc0_verify_of_prove_ok B hs sk m out h

/-- Witness for C1 at the empty string and at a non-ASCII one-character
string. -/
theorem prove_verify_roundtrip_witness :
    risc0_verify concreteB (Risc0ProofOutput.mk [3, 2, 2, 3, 7, 2, 2, 3]).receipt =
      .ok { is_valid := true, verified_message := "" } ∧
    risc0_verify concreteB
        (Risc0ProofOutput.mk [4, 2, 2, 3, 233, 7, 2, 2, 3, 233]).receipt =
      .ok { is_valid := true, verified_message := "é" } :=
  ⟨prove_verify_roundtrip concreteB concreteSpec 3 "" _ (by decide),
   prove_verify_roundtrip concreteB concreteSpec 3 "é" _ (by decide)⟩

/-- C3: the guest commits exactly the pair of public-key encoding and
message bytes when the signature verifies under the reconstructed key, and
aborts with no commit when the reconstructed key rejects the signature. -/
theorem guest_commit_characterization (P : P256 SKey VKey Sig)
    (input : Bytes × Bytes × Sig) :
    (∀ c, guestMain P input = some c ↔
      ∃ vk, P.fromEncodedPoint input.1 = some vk ∧
        P.verify vk input.2.1 input.2.2 = true ∧ c = (input.1, input.2.1)) ∧
    (∀ vk, P.fromEncodedPoint input.1 = some vk →
      P.verify vk input.2.1 input.2.2 = false → guestMain P input = none) := by
  constructor
  · intro c
    exact guestMain_some_iff P input c
  · intro vk hf hv
    unfold guestMain
    simp only [hf, hv]
    simp

/-- Witness for C3: a committing run and an aborting run of the concrete
guest. -/
theorem guest_commit_characterization_witness :
    (guestMain concreteP ([2, 5], [1], 6) = some ([2, 5], [1]) ↔
      ∃ vk, concreteP.fromEncodedPoint [2, 5] = some vk ∧
        concreteP.verify vk [1] 6 = true ∧ (([2, 5], [1]) : Bytes × Bytes) = ([2, 5], [1])) ∧
    guestMain concreteP ([2, 5], [1], 7) = none :=
  ⟨(guest_commit_characterization concreteP ([2, 5], [1], 6)).1 ([2, 5], [1]),
   (guest_commit_characterization concreteP ([2, 5], [1], 7)).2 5 (by decide) (by decide)⟩

/-- C9: when the compressed public-key encoding is not a valid curve point,
the guest aborts with no journal commit, and it does so before any
signature check: the outcome is the same for every signature-verification
function. -/
theorem guest_aborts_on_invalid_point (P : P256 SKey VKey Sig)
    (input : Bytes × Bytes × Sig) (h : P.fromEncodedPoint input.1 = none) :
    guestMain P input = none ∧
    ∀ v, guestMain { P with verify := v } input = none := by
  constructor
  · unfold guestMain
    rw [h]
  · intro v
    unfold guestMain
    rw [show ({ P with verify := v } : P256 SKey VKey Sig).fromEncodedPoint =
      P.fromEncodedPoint from rfl, h]

/-- Witness for C9: the concrete point decoder rejects a one-byte encoding
and the guest aborts whatever the verification function says. -/
theorem guest_aborts_on_invalid_point_witness :
    guestMain concreteP ([5], [], 0) = none ∧
    guestMain { concreteP with verify := fun _ _ _ => true } ([5], [], 0) = none :=
  ⟨(guest_aborts_on_invalid_point concreteP ([5], [], 0) (by decide)).1,
   (guest_aborts_on_invalid_point concreteP ([5], [], 0) (by decide)).2
     (fun _ _ _ => true)⟩

/-- C10: `risc0_verify` is deterministic; it is a pure function of the
receipt byte buffer and the deterministic external collaborators, so two
invocations on identical buffers return identical results. -/
theorem risc0_verify_deterministic (B : Backend SKey VKey Sig Seal)
    (b1 b2 : Bytes) (h : b1 = b2) :
    risc0_verify B b1 = risc0_verify B b2 := by
  rw [h]

/-- Witness for C10. -/
theorem risc0_verify_deterministic_witness :
    risc0_verify concreteB [3, 2, 2, 3, 7, 2, 2, 3] =
      risc0_verify concreteB [3, 2, 2, 3, 7, 2, 2, 3] :=
  risc0_verify_deterministic concreteB [3, 2, 2, 3, 7, 2, 2, 3]
    [3, 2, 2, 3, 7, 2, 2, 3] rfl

/-- C2: a receipt passes the seal check against the fixed program identity
exactly when it arose from a guest run, under that identity, that completed
without the signature check failing; its journal is the encoding of the
committed pair of public-key encoding and message, and the receipt the
backend produces is independent of the signature value (and the private
key, which never reaches the backend output at all), so neither is revealed
by the receipt. -/
theorem receipt_verifies_iff_guest_run (B : Backend SKey VKey Sig Seal)
    (hs : BackendSpec B) (r : Receipt Seal) :
    (receiptVerifies B r = true ↔
      ∃ input c, guestMain B.P input = some c ∧ r.journal = B.journalEncode c ∧
        r.sealv = B.makeSeal B.ECDSA_VERIFY_ID r.journal) ∧
    (∀ input c, guestMain B.P input = some c → r.journal = B.journalEncode c →
      B.journalDecode r.journal = some c) ∧
    (∀ enc msg sig sig2 r1 r2, proverProve B (enc, msg, sig) = some r1 →
      proverProve B (enc, msg, sig2) = some r2 → r1 = r2) := by
  refine ⟨⟨?_, ?_⟩, ?_, ?_⟩
  · intro hv
    obtain ⟨input, c, hg, hj, hsl⟩ := hs.seal_sound r.sealv r.journal hv
    exact ⟨input, c, hg, hj, hsl⟩
  · rintro ⟨input, c, hg, hj, hsl⟩
    unfold receiptVerifies
    rw [hsl, hj]
    exact hs.seal_complete B.ECDSA_VERIFY_ID input c hg
  · intro input c hg hj
    rw [hj]
    exact hs.journal_roundtrip c
  · intro enc msg sig sig2 r1 r2 h1 h2
    unfold proverProve at h1 h2
    cases hg1 : guestMain B.P (enc, msg, sig) with
    | none =>
      rw [hg1] at h1
      cases h1
    | some c1 =>
      cases hg2 : guestMain B.P (enc, msg, sig2) with
      | none =>
        rw [hg2] at h2
        cases h2
      | some c2 =>
        simp only [hg1, Option.some.injEq] at h1
        simp only [hg2, Option.some.injEq] at h2
        have hc1 : c1 = (enc, msg) := by
          obtain ⟨vk, -, -, hc⟩ := (guestMain_some_iff B.P (enc, msg, sig) c1).1 hg1
          exact hc
        have hc2 : c2 = (enc, msg) := by
          obtain ⟨vk, -, -, hc⟩ := (guestMain_some_iff B.P (enc, msg, sig2) c2).1 hg2
          exact hc
        rw [← h1, ← h2, hc1, hc2]

/-- Witness for C2 at a concrete receipt of the concrete backend: the seal
check passes and the characterizing run exists; the journal decodes to the
committed pair; two proofs over the same key encoding and message yield the
same receipt. -/
theorem receipt_verifies_iff_guest_run_witness :
    (receiptVerifies concreteB ⟨[2, 2, 3], (7, [2, 2, 3])⟩ = true ↔
      ∃ input c, guestMain concreteB.P input = some c ∧
        (Receipt.journal ⟨[2, 2, 3], (7, [2, 2, 3])⟩ : Bytes) = concreteB.journalEncode c ∧
        (Receipt.sealv ⟨[2, 2, 3], (7, [2, 2, 3])⟩ : Nat × Bytes) =
          concreteB.makeSeal concreteB.ECDSA_VERIFY_ID
            (Receipt.journal ⟨[2, 2, 3], (7, [2, 2, 3])⟩)) ∧
    concreteB.journalDecode [2, 2, 3] = some ([2, 3], []) ∧
    (proverProve concreteB ([2, 3], [], 3) = some ⟨[2, 2, 3], (7, [2, 2, 3])⟩ →
      proverProve concreteB ([2, 3], [], 3) = some ⟨[2, 2, 3], (7, [2, 2, 3])⟩ →
      (⟨[2, 2, 3], (7, [2, 2, 3])⟩ : Receipt (Nat × Bytes)) = ⟨[2, 2, 3], (7, [2, 2, 3])⟩) :=
  ⟨(receipt_verifies_iff_guest_run concreteB concreteSpec ⟨[2, 2, 3], (7, [2, 2, 3])⟩).1,
   (receipt_verifies_iff_guest_run concreteB concreteSpec ⟨[2, 2, 3], (7, [2, 2, 3])⟩).2.1
     ([2, 3], [], 3) ([2, 3], []) (by decide) rfl,
   (receipt_verifies_iff_guest_run concreteB concreteSpec ⟨[2, 2, 3], (7, [2, 2, 3])⟩).2.2
     [2, 3] [] 3 3 _ _⟩

/-- The backend with the two journal-decoding stages replaced and all
earlier stages kept. -/
def withDecoders (B : Backend SKey VKey Sig Seal)
    (jd : Bytes → Option (Bytes × Bytes)) (ud : Bytes → Option String) :
    Backend SKey VKey Sig Seal :=
  { B with journalDecode := jd, utf8Decode := ud }

/-- C4: on a buffer that deserializes, `risc0_verify` checks the seal
against the fixed program identity first; a failing seal yields VerifyError
whatever the journal decoders would do, so the journal is only decoded
after the seal check succeeds, and then a journal that does not decode to
the expected tuple, or whose message bytes are not valid text, yields
DecodeError. -/
theorem verify_stage_order (B : Backend SKey VKey Sig Seal) (b : Bytes)
    (r : Receipt Seal) (hdes : B.deserializeReceipt b = some r) :
    (B.sealVerify r.sealv r.journal B.ECDSA_VERIFY_ID = false →
      risc0_verify B b = .error (.VerifyError "Failed to verify receipt") ∧
      ∀ jd ud, risc0_verify (withDecoders B jd ud) b =
        .error (.VerifyError "Failed to verify receipt")) ∧
    (B.sealVerify r.sealv r.journal B.ECDSA_VERIFY_ID = true →
      (B.journalDecode r.journal = none →
        risc0_verify B b = .error (.DecodeError "Failed to decode journal")) ∧
      (∀ enc mb, B.journalDecode r.journal = some (enc, mb) → B.utf8Decode mb = none →
        risc0_verify B b =
          .error (.DecodeError "Failed to convert message to string"))) := by
  constructor
  · intro hsv
    constructor
    · unfold risc0_verify
      simp only [hdes, hsv]
      simp
    · intro jd ud
      unfold risc0_verify
      rw [show (withDecoders B jd ud).deserializeReceipt = B.deserializeReceipt from rfl,
        show (withDecoders B jd ud).sealVerify = B.sealVerify from rfl,
        show (withDecoders B jd ud).ECDSA_VERIFY_ID = B.ECDSA_VERIFY_ID from rfl]
      simp only [hdes, hsv]
      simp
  · intro hsv
    constructor
    · intro hjd
      unfold risc0_verify
      simp only [hdes, hsv, if_true, hjd]
    · intro enc mb hjd hud
      unfold risc0_verify
      simp only [hdes, hsv, if_true, hjd, hud]

/-- A variant concrete backend whose seal check is the transparent pair
comparison alone, used to exercise every branch of the verifier stage
ordering, including a passing seal over an undecodable journal. -/
def concreteB2 : Backend Nat Nat Nat (Nat × Bytes) :=
  { concreteB with sealVerify := fun s j i => decide (s = (i, j)) }

/-- Witness for C4: a failing seal yields VerifyError whatever the decoders
are; a passing seal over an undecodable journal yields DecodeError; a
passing seal over a journal whose message bytes are not valid text yields
the text DecodeError. -/
theorem verify_stage_order_witness :
    (risc0_verify concreteB2 [3, 2, 2, 3, 8, 2, 2, 3] =
        .error (.VerifyError "Failed to verify receipt") ∧
      risc0_verify (withDecoders concreteB2 (fun _ => none) (fun _ => none))
          [3, 2, 2, 3, 8, 2, 2, 3] =
        .error (.VerifyError "Failed to verify receipt")) ∧
    risc0_verify concreteB2 [1, 5, 7, 5] =
      .error (.DecodeError "Failed to decode journal") ∧
    risc0_verify concreteB2 [4, 2, 2, 3, 55296, 7, 2, 2, 3, 55296] =
      .error (.DecodeError "Failed to convert message to string") :=
  ⟨⟨((verify_stage_order concreteB2 [3, 2, 2, 3, 8, 2, 2, 3]
        ⟨[2, 2, 3], (8, [2, 2, 3])⟩ (by decide)).1 (by decide)).1,
    ((verify_stage_order concreteB2 [3, 2, 2, 3, 8, 2, 2, 3]
        ⟨[2, 2, 3], (8, [2, 2, 3])⟩ (by decide)).1 (by decide)).2
      (fun _ => none) (fun _ => none)⟩,
   ((verify_stage_order concreteB2 [1, 5, 7, 5] ⟨[5], (7, [5])⟩
        (by decide)).2 (by decide)).1 (by decide),
   ((verify_stage_order concreteB2 [4, 2, 2, 3, 55296, 7, 2, 2, 3, 55296]
        ⟨[2, 2, 3, 55296], (7, [2, 2, 3, 55296])⟩ (by decide)).2 (by decide)).2
     [2, 3] [55296] (by decide) (by decide)⟩

/-- The backend with every stage after deserialization replaced. -/
def withStages (B : Backend SKey VKey Sig Seal) (sv : Seal → Bytes → Nat → Bool)
    (jd : Bytes → Option (Bytes × Bytes)) (ud : Bytes → Option String) :
    Backend SKey VKey Sig Seal :=
  { B with sealVerify := sv, journalDecode := jd, utf8Decode := ud }

/-- C5: a byte buffer that is not a well-formed serialized receipt makes
`risc0_verify` return SerializeError: the result is always an error value
(deserialization is modelled as a total fallible operation, never a panic),
and no partially-populated receipt reaches later stages, since the outcome
is unchanged when every later stage is replaced. -/
theorem malformed_receipt_serialize_error (B : Backend SKey VKey Sig Seal)
    (b : Bytes) (h : B.deserializeReceipt b = none) :
    risc0_verify B b = .error (.SerializeError "Failed to deserialize receipt") ∧
    ∀ sv jd ud, risc0_verify (withStages B sv jd ud) b =
      .error (.SerializeError "Failed to deserialize receipt") := by
  constructor
  · unfold risc0_verify
    simp only [h]
  · intro sv jd ud
    unfold risc0_verify
    rw [show (withStages B sv jd ud).deserializeReceipt = B.deserializeReceipt from rfl]
    simp only [h]

/-- Witness for C5 at the empty buffer and at a truncated buffer. -/
theorem malformed_receipt_serialize_error_witness :
    risc0_verify concreteB [] =
      .error (.SerializeError "Failed to deserialize receipt") ∧
    risc0_verify (withStages concreteB (fun _ _ _ => true) (fun _ => none) (fun _ => none))
        [] = .error (.SerializeError "Failed to deserialize receipt") ∧
    risc0_verify concreteB [9, 1] =
      .error (.SerializeError "Failed to deserialize receipt") :=
  ⟨(malformed_receipt_serialize_error concreteB [] (by decide)).1,
   (malformed_receipt_serialize_error concreteB [] (by decide)).2
     (fun _ _ _ => true) (fun _ => none) (fun _ => none),
   (malformed_receipt_serialize_error concreteB [9, 1] (by decide)).1⟩

/-- C6: whenever `risc0_verify` returns a success value, its `is_valid`
field is true; the function never returns a success value with `is_valid`
false, so verification is binary and every failure is an error. -/
theorem verify_success_is_valid (B : Backend SKey VKey Sig Seal) (b : Bytes)
    (out : Risc0VerifyOutput) (h : risc0_verify B b = .ok out) :
    out.is_valid = true := by
  unfold risc0_verify at h
  cases hd : B.deserializeReceipt b with
  | none =>
    simp only [hd] at h
    exact absurd h (by simp)
  | some r =>
    simp only [hd] at h
    by_cases hv : B.sealVerify r.sealv r.journal B.ECDSA_VERIFY_ID
    · simp only [hv, if_true] at h
      cases hj : B.journalDecode r.journal with
      | none =>
        simp only [hj] at h
        exact absurd h (by simp)
      | some c =>
        obtain ⟨enc, mb⟩ := c
        simp only [hj] at h
        cases hu : B.utf8Decode mb with
        | none =>
          simp only [hu] at h
          exact absurd h (by simp)
        | some msg =>
          simp only [hu, Except.ok.injEq] at h
          rw [← h]
    · simp only [Bool.not_eq_true] at hv
      simp only [hv] at h
      exact absurd h (by simp)

/-- Witness for C6 at a concrete successful verification. -/
theorem verify_success_is_valid_witness :
    (Risc0VerifyOutput.mk true "hi").is_valid = true :=
  verify_success_is_valid concreteB [5, 2, 2, 5, 104, 105, 7, 2, 2, 5, 104, 105]
    (Risc0VerifyOutput.mk true "hi") (by decide)

/-- C7: each `risc0_prove` call draws its own fresh key from the
operating-system RNG (modelled by each call consuming its own drawn key);
whenever the two drawn keys have distinct public encodings, the two
receipts embed different public keys and both independently verify. -/
theorem fresh_keys_independent_runs (B : Backend SKey VKey Sig Seal)
    (hs : BackendSpec B) (sk1 sk2 : SKey) (m : String)
    (out1 out2 : Risc0ProofOutput)
    (h1 : risc0_prove B sk1 m = .ok out1) (h2 : risc0_prove B sk2 m = .ok out2)
    (hk : B.P.toEncodedPoint (B.P.verifyingKey sk1) ≠
      B.P.toEncodedPoint (B.P.verifyingKey sk2)) :
    embeddedPublicKey B out1.receipt = some (B.P.toEncodedPoint (B.P.verifyingKey sk1)) ∧
    embeddedPublicKey B out2.receipt = some (B.P.toEncodedPoint (B.P.verifyingKey sk2)) ∧
    embeddedPublicKey B out1.receipt ≠ embeddedPublicKey B out2.receipt ∧
    (risc0_verify B out1.receipt).isOk = true ∧
    (risc0_verify B out2.receipt).isOk = true := by
  have he1 := embeddedPublicKey_of_prove_ok B hs sk1 m out1 h1
  have he2 := embeddedPublicKey_of_prove_ok B hs sk2 m out2 h2
  refine ⟨he1, he2, ?_, ?_, ?_⟩
  · rw [he1, he2]
    intro hsome
    exact hk (Option.some.inj hsome)
  · rw [risc0_verify_of_prove_ok B hs sk1 m out1 h1]
    rfl
  · rw [risc0_verify_of_prove_ok B hs sk2 m out2 h2]
    rfl

/-- Witness for C7: two concrete calls over the same message with distinct
drawn keys. -/
theorem fresh_keys_independent_runs_witness :
    embeddedPublicKey concreteB
        (Risc0ProofOutput.mk [4, 2, 2, 3, 97, 7, 2, 2, 3, 97]).receipt = some [2, 3] ∧
    embeddedPublicKey concreteB
        (Risc0ProofOutput.mk [4, 2, 2, 4, 97, 7, 2, 2, 4, 97]).receipt = some [2, 4] ∧
    embeddedPublicKey concreteB
        (Risc0ProofOutput.mk [4, 2, 2, 3, 97, 7, 2, 2, 3, 97]).receipt ≠
      embeddedPublicKey concreteB
        (Risc0ProofOutput.mk [4, 2, 2, 4, 97, 7, 2, 2, 4, 97]).receipt ∧
    (risc0_verify concreteB
      (Risc0ProofOutput.mk [4, 2, 2, 3, 97, 7, 2, 2, 3, 97]).receipt).isOk = true ∧
    (risc0_verify concreteB
      (Risc0ProofOutput.mk [4, 2, 2, 4, 97, 7, 2, 2, 4, 97]).receipt).isOk = true :=
  fresh_keys_independent_runs concreteB concreteSpec 3 4 "a" _ _
    (by decide) (by decide) (by decide)

/-- C8 counterexample: the demo host helper `prove_ecdsa_verification`
unwraps the backend result, so on an input whose signature does not verify
(here the concrete key 0, empty message, signature 1) the guest aborts, the
backend fails, and the unwrap aborts the host process (rendered `none`)
instead of returning a typed error. -/
theorem prove_ecdsa_abort_counterexample :
    prove_ecdsa_verification concreteB 0 [] 1 = none := by
  decide

/-- C8 amended: the FFI operations `risc0_prove` and `risc0_verify` return
a typed error result for every input, with the error kinds of their
pipelines, and never abort; the demo host helper `prove_ecdsa_verification`
aborts the process exactly when the environment build fails or the guest
aborts. -/
theorem ffi_operations_return_typed_results (B : Backend SKey VKey Sig Seal)
    (sk : SKey) (m : String) (b : Bytes) (vk : VKey) (msg : Bytes) (sig : Sig) :
    ((∃ out, risc0_prove B sk m = .ok out) ∨
     (∃ c, risc0_prove B sk m = .error (.ProveError c)) ∨
     (∃ c, risc0_prove B sk m = .error (.SerializeError c))) ∧
    ((∃ out, risc0_verify B b = .ok out) ∨
     (∃ c, risc0_verify B b = .error (.SerializeError c)) ∨
     (∃ c, risc0_verify B b = .error (.VerifyError c)) ∨
     (∃ c, risc0_verify B b = .error (.DecodeError c))) ∧
    (prove_ecdsa_verification B vk msg sig = none ↔
      (B.envWriteOk (B.P.toEncodedPoint vk, msg, sig) = false ∨
       guestMain B.P (B.P.toEncodedPoint vk, msg, sig) = none)) := by
  refine ⟨?_, ?_, ?_⟩
  · rw [risc0_prove_eq]
    by_cases he : B.envWriteOk (producedInput B sk m)
    · rw [if_pos he]
      cases hp : proverProve B (producedInput B sk m) with
      | none =>
        exact Or.inr (Or.inl ⟨_, rfl⟩)
      | some r =>
        cases hser : B.serializeReceipt r with
        | none =>
          refine Or.inr (Or.inr ⟨"Failed to serialize receipt", ?_⟩)
          simp [hser]
        | some bts =>
          refine Or.inl ⟨{ receipt := bts }, ?_⟩
          simp [hser]
    · rw [if_neg he]
      exact Or.inr (Or.inl ⟨_, rfl⟩)
  · unfold risc0_verify
    cases hd : B.deserializeReceipt b with
    | none =>
      exact Or.inr (Or.inl ⟨_, rfl⟩)
    | some r =>
      by_cases hv : B.sealVerify r.sealv r.journal B.ECDSA_VERIFY_ID
      · simp only [hv, if_true]
        cases hj : B.journalDecode r.journal with
        | none =>
          exact Or.inr (Or.inr (Or.inr ⟨_, rfl⟩))
        | some c =>
          obtain ⟨enc, mb⟩ := c
          cases hu : B.utf8Decode mb with
          | none =>
            refine Or.inr (Or.inr (Or.inr ⟨"Failed to convert message to string", ?_⟩))
            simp [hu]
          | some msg2 =>
            refine Or.inl ⟨{ is_valid := true, verified_message := msg2 }, ?_⟩
            simp [hu]
      · simp only [Bool.not_eq_true] at hv
        simp only [hv]
        exact Or.inr (Or.inr (Or.inl ⟨_, rfl⟩))
  · unfold prove_ecdsa_verification proverProve
    by_cases he : B.envWriteOk (B.P.toEncodedPoint vk, msg, sig)
    · simp only [he, if_true]
      cases hg : guestMain B.P (B.P.toEncodedPoint vk, msg, sig) with
      | none =>
        simp [he]
      | some c =>
        simp [he]
    · simp [he]
